import Mathlib

/- Verification of the arithmetic module `langchain_bookbot/app.py`.

The module defines two pure helpers over Python floats (IEEE-754 binary64),
`sum` (returns `a + b`) and `subtract` (returns `a - b`), and one
demonstration routine `do_some_math` that applies them to the literals
1.0 and 2.0 and prints a single formatted line to standard output.

The embedding models a Python float as an explicit IEEE-754 binary64 datum
(`Fp`), float addition and subtraction as correctly rounded (round to
nearest, ties to even) operations on those data, Python's `==` on floats
(`feq`: NaN compares unequal to everything, signed zeros compare equal),
and the f-string rendering of a float (`pyFloatStr`: the shortest decimal
string that round-trips, formatted the way CPython's float repr formats
it). Standard output is modelled as the list of lines written so far. -/

namespace App

/-- An IEEE-754 binary64 datum as observable through Python's float type:
the (single, canonical) NaN, a signed infinity, or a signed finite dyadic
value `(-1)^sign * v * 2^e`; `v = 0` encodes a signed zero. The sign flag
is `true` for negative. -/
inductive Fp where
  | nan : Fp
  | inf : Bool → Fp
  | finite : Bool → Nat → Int → Fp
deriving DecidableEq

/-- Fuel-driven bit-length helper. -/
def bitlenAux : Nat → Nat → Nat
  | 0, _ => 0
  | fuel + 1, n => if n = 0 then 0 else bitlenAux fuel (n / 2) + 1

/-- Bit length of a natural number: `bitlen n = ⌊log2 n⌋ + 1` for `n ≥ 1`,
and `bitlen 0 = 0`. -/
def bitlen (n : Nat) : Nat := bitlenAux n n

/-- Fuel-driven decimal-digit-count helper. -/
def digits10Aux : Nat → Nat → Nat
  | 0, _ => 0
  | fuel + 1, n => if n = 0 then 0 else digits10Aux fuel (n / 10) + 1

/-- Number of decimal digits of a natural number: `digits10 n = ⌊log10 n⌋ + 1`
for `n ≥ 1`, and `digits10 0 = 0`. -/
def digits10 (n : Nat) : Nat := digits10Aux n n

/-- Signed integer view of a sign flag and magnitude. -/
def sgnInt (s : Bool) (v : Nat) : Int := if s then -(v : Int) else (v : Int)

/-- Floor of `num * 2^sh / den` for an integer (possibly negative) shift. -/
def scaledFloor (num den : Nat) (sh : Int) : Nat :=
  if 0 ≤ sh then num * 2 ^ sh.toNat / den else num / (den * 2 ^ (-sh).toNat)

/-- One normalization step for the target binade exponent of rounding:
moves `q` down when the scaled significand is still below `2^52` (unless
already at the subnormal floor `-1074`) and up when it reaches `2^53`. -/
def fixQ (num den : Nat) (E2 q : Int) : Int :=
  if scaledFloor num den (E2 - q) < 2 ^ 52 ∧ -1074 < q then q - 1
  else if 2 ^ 53 ≤ scaledFloor num den (E2 - q) then q + 1
  else q

/-- Round the positive rational `(num / den) * 2^E2` (with `num, den ≥ 1`) to
the nearest IEEE-754 binary64 magnitude, ties to even. Returns `some (M, q)`
with magnitude `M * 2^q` — normal `2^52 ≤ M < 2^53`, or subnormal at
`q = -1074` — or `none` when the magnitude overflows to infinity. -/
def roundRat (num den : Nat) (E2 : Int) : Option (Nat × Int) :=
  let q0 := max (E2 + (bitlen num : Int) - (bitlen den : Int) - 52) (-1074)
  let q := fixQ num den E2 (fixQ num den E2 q0)
  let A := if 0 ≤ E2 - q then num * 2 ^ (E2 - q).toNat else num
  let B := if 0 ≤ E2 - q then den else den * 2 ^ (q - E2).toNat
  let M0 := A / B
  let r := A % B
  let M1 := if 2 * r > B ∨ (2 * r = B ∧ M0 % 2 = 1) then M0 + 1 else M0
  let M2 := if M1 = 2 ^ 53 then 2 ^ 52 else M1
  let q2 := if M1 = 2 ^ 53 then q + 1 else q
  if 971 < q2 then none else some (M2, q2)

/-- Pack a rounded magnitude with its sign: overflow becomes the signed
infinity, otherwise a signed finite datum. -/
def roundFinite (s : Bool) (m : Nat) (E : Int) : Fp :=
  match roundRat m 1 E with
  | none => Fp.inf s
  | some (M, q) => Fp.finite s M q

/-- IEEE-754 binary64 negation (Python's unary minus on floats). -/
def fneg : Fp → Fp
  | Fp.nan => Fp.nan
  | Fp.inf s => Fp.inf (!s)
  | Fp.finite s v e => Fp.finite (!s) v e

/-- IEEE-754 binary64 addition, round to nearest, ties to even: the
semantics of Python's `+` on two floats. A NaN operand propagates;
infinities of equal sign absorb, of opposite signs give NaN; for finite
operands the exact dyadic sum is taken at the common exponent and rounded,
and an exactly zero sum is `-0.0` only when both operands are negative. -/
def fadd : Fp → Fp → Fp
  | Fp.nan, _ => Fp.nan
  | _, Fp.nan => Fp.nan
  | Fp.inf s, Fp.inf t => if s = t then Fp.inf s else Fp.nan
  | Fp.inf s, Fp.finite _ _ _ => Fp.inf s
  | Fp.finite _ _ _, Fp.inf t => Fp.inf t
  | Fp.finite sa va ea, Fp.finite sb vb eb =>
    let E := min ea eb
    let S := sgnInt sa va * 2 ^ (ea - E).toNat + sgnInt sb vb * 2 ^ (eb - E).toNat
    if S = 0 then Fp.finite (sa && sb) 0 0
    else roundFinite (decide (S < 0)) S.natAbs E

/-- IEEE-754 binary64 subtraction, round to nearest, ties to even: the
semantics of Python's `-` on two floats. Mirrors `fadd` with the second
operand's contribution negated; an exactly zero difference is `-0.0` only
for `(-0.0) - (+0.0)`. -/
def fsub : Fp → Fp → Fp
  | Fp.nan, _ => Fp.nan
  | _, Fp.nan => Fp.nan
  | Fp.inf s, Fp.inf t => if s = t then Fp.nan else Fp.inf s
  | Fp.inf s, Fp.finite _ _ _ => Fp.inf s
  | Fp.finite _ _ _, Fp.inf t => Fp.inf (!t)
  | Fp.finite sa va ea, Fp.finite sb vb eb =>
    let E := min ea eb
    let S := sgnInt sa va * 2 ^ (ea - E).toNat - sgnInt sb vb * 2 ^ (eb - E).toNat
    if S = 0 then Fp.finite (sa && !sb) 0 0
    else roundFinite (decide (S < 0)) S.natAbs E

/-- Python's `==` on two floats under IEEE-754: NaN is unequal to
everything (itself included), infinities compare by sign, finite values
compare as real numbers (so `0.0 == -0.0` holds). -/
def feq : Fp → Fp → Bool
  | Fp.nan, _ => false
  | _, Fp.nan => false
  | Fp.inf s, Fp.inf t => s == t
  | Fp.inf _, Fp.finite _ _ _ => false
  | Fp.finite _ _ _, Fp.inf _ => false
  | Fp.finite sa va ea, Fp.finite sb vb eb =>
    let E := min ea eb
    decide (sgnInt sa va * 2 ^ (ea - E).toNat = sgnInt sb vb * 2 ^ (eb - E).toNat)

/-- Finiteness test: true exactly on finite (zero included) data. -/
def isFinite : Fp → Bool
  | Fp.finite _ _ _ => true
  | _ => false

/-- NaN test. -/
def isNan : Fp → Bool
  | Fp.nan => true
  | _ => false

/-- The function `sum` of app.py (lines 4-8): `return a + b` on two floats. -/
def sum (a b : Fp) : Fp := fadd a b

/-- The function `subtract` of app.py (lines 11-15): `return a - b` on two
floats. -/
def subtract (a b : Fp) : Fp := fsub a b

/-- A call to `sum` as a fallible Python call: float addition raises no
exception for float operands, so the call always returns normally with the
rounded sum. -/
def sum_call (a b : Fp) : Except String Fp := Except.ok (sum a b)

/-- A call to `subtract` as a fallible Python call: float subtraction
raises no exception for float operands. -/
def subtract_call (a b : Fp) : Except String Fp := Except.ok (subtract a b)

/-- Nearest integer to `a / b`, ties to even (`b ≥ 1`). -/
def divNE (a b : Nat) : Nat :=
  let q := a / b
  let r := a % b
  if 2 * r > b ∨ (2 * r = b ∧ q % 2 = 1) then q + 1 else q

/-- Decimal exponent `⌊log10 (v / 2^m)⌋` of a value strictly below one
(`1 ≤ v < 2^m`). -/
def fracDexp (v : Nat) (m : Nat) : Int :=
  let t0 := digits10 (2 ^ m / v) - 1
  if v * 10 ^ t0 = 2 ^ m then -(t0 : Int) else -(t0 : Int) - 1

/-- Decimal exponent `⌊log10 (v * 2^e)⌋` of a positive dyadic value
(`v ≥ 1`). -/
def fpDexp (v : Nat) (e : Int) : Int :=
  if 0 ≤ e then (digits10 (v * 2 ^ e.toNat) : Int) - 1
  else if 2 ^ (-e).toNat ≤ v then (digits10 (v / 2 ^ (-e).toNat) : Int) - 1
  else fracDexp v (-e).toNat

/-- Correctly rounded `k`-significant-digit decimal approximation of the
positive dyadic value `v * 2^e`: returns `(n, p)` with `n * 10^p` nearest
(ties to even) to the value among `k`-digit decimals. -/
def decCandidate (v : Nat) (e : Int) (k : Nat) : Nat × Int :=
  let dexp := fpDexp v e
  let p := dexp - (k : Int) + 1
  let num := v * 2 ^ (max e 0).toNat * 10 ^ (max (-p) 0).toNat
  let den := 2 ^ (max (-e) 0).toNat * 10 ^ (max p 0).toNat
  let n := divNE num den
  if n = 10 ^ k then (10 ^ (k - 1), p + 1) else (n, p)

/-- Nearest binary64 magnitude to the positive decimal `n * 10^p` (the
semantics of reading the decimal back in, rounding to nearest-even). -/
def parseDec (n : Nat) (p : Int) : Option (Nat × Int) :=
  if 0 ≤ p then roundRat (n * 5 ^ p.toNat) 1 p
  else roundRat n (5 ^ (-p).toNat) p

/-- Equality of two positive dyadic values given by magnitude and exponent. -/
def dyadicEq (a : Nat) (ea : Int) (b : Nat) (eb : Int) : Bool :=
  let E := min ea eb
  a * 2 ^ (ea - E).toNat == b * 2 ^ (eb - E).toNat

/-- Fuel-driven trailing-decimal-zero stripping helper. -/
def stripZerosAux : Nat → Nat → Nat × Nat
  | 0, n => (n, 0)
  | fuel + 1, n =>
    if n % 10 = 0 ∧ n ≠ 0 then
      let p := stripZerosAux fuel (n / 10)
      (p.1, p.2 + 1)
    else (n, 0)

/-- Strip trailing decimal zeros: `stripZeros n = (m, t)` with
`n = m * 10^t` and `m` not divisible by 10 (for `n ≥ 1`). -/
def stripZeros (n : Nat) : Nat × Nat := stripZerosAux n n

/-- Shortest round-tripping decimal for the positive dyadic value `v * 2^e`
(a representable binary64 magnitude): the fewest-significant-digit decimal,
correctly rounded, that reads back to exactly this value — the digit
selection CPython's float repr performs. Returns `(n, p)`, the value
`n * 10^p` with `n` carrying no trailing zeros. -/
def shortestDec (v : Nat) (e : Int) : Nat × Int :=
  let fits := fun (k : Nat) =>
    let c := decCandidate v e k
    match parseDec c.1 c.2 with
    | some Mq => dyadicEq Mq.1 Mq.2 v e
    | none => false
  let k := (((List.range 17).map (fun i => i + 1)).find? fits).getD 17
  let c := decCandidate v e k
  let s := stripZeros c.1
  (s.1, c.2 + (s.2 : Int))

/-- Decimal rendering of a natural number. -/
def natStr (n : Nat) : String := Nat.repr n

/-- A run of `k` zero characters. -/
def zeros (k : Nat) : String := String.mk (List.replicate k '0')

/-- Exponent field of Python's float repr: explicit sign and at least two
digits (`1e+16`, `1.5e-05`). -/
def decExpStr (d : Int) : String :=
  let sign := if d < 0 then "-" else "+"
  let a := d.natAbs
  sign ++ (if a < 10 then "0" ++ natStr a else natStr a)

/-- Positional or exponential layout of a rendered float, as CPython's
float repr lays it out: significant digits `n` (no trailing zeros) with
decimal exponent `dexp`, positional for `-4 ≤ dexp < 16` (with ".0"
appended to integral values), exponential otherwise. -/
def formatDigits (neg : Bool) (n : Nat) (dexp : Int) : String :=
  let ds := natStr n
  let L := digits10 n
  let core :=
    if dexp < -4 ∨ 16 ≤ dexp then
      (if n < 10 then ds else ds.take 1 ++ "." ++ ds.drop 1) ++ "e" ++ decExpStr dexp
    else if dexp < 0 then
      "0." ++ zeros (-dexp - 1).toNat ++ ds
    else if L ≤ dexp.toNat + 1 then
      ds ++ zeros (dexp.toNat + 1 - L) ++ ".0"
    else
      ds.take (dexp.toNat + 1) ++ "." ++ ds.drop (dexp.toNat + 1)
  if neg then "-" ++ core else core

/-- Python's default string rendering of a float (`str` = `repr` since
Python 3.2): `nan`, signed `inf`, signed `0.0`, and for nonzero finite
values the shortest round-tripping decimal in CPython's repr layout. -/
def pyFloatStr : Fp → String
  | Fp.nan => "nan"
  | Fp.inf s => if s then "-inf" else "inf"
  | Fp.finite s v e =>
    if v = 0 then (if s then "-0.0" else "0.0")
    else
      let c := shortestDec v e
      formatDigits s c.1 (c.2 + (digits10 c.1 : Int) - 1)

/-- Python's `print` of one string: appends one line to standard output,
modelled as the list of lines written so far. -/
def pyPrint (line : String) (out : List String) : List String := out ++ [line]

/-- The function `do_some_math` of app.py (lines 18-26): binds the float
literals 1.0 and 2.0, applies `sum` and `subtract`, and prints the single
f-string line; returns Python's None, modelled as the unit value, paired
with the resulting standard-output state. -/
def do_some_math (out : List String) : Unit × List String :=
  let a := Fp.finite false 1 0
  let b := Fp.finite false 1 1
  let c := sum a b
  let d := subtract a b
  ((), pyPrint ("Sum: " ++ pyFloatStr c ++ ", Difference: " ++ pyFloatStr d) out)



lemma sgnInt_zero (s : Bool) : sgnInt s 0 = 0 := by cases s <;> simp [sgnInt]

lemma sgnInt_not (s : Bool) (v : Nat) : sgnInt (!s) v = -sgnInt s v := by
  cases s <;> simp [sgnInt]

lemma feq_refl (x : Fp) (h : x ≠ Fp.nan) : feq x x = true := by
  cases x with
  | nan => exact absurd rfl h
  | inf s => simp [feq]
  | finite s v e => simp [feq]

lemma roundFinite_ne_nan (s : Bool) (m : Nat) (E : Int) : roundFinite s m E ≠ Fp.nan := by
  unfold roundFinite
  rcases h : roundRat m 1 E with _ | ⟨M, q⟩ <;> simp

lemma fneg_roundFinite (s : Bool) (m : Nat) (E : Int) :
    fneg (roundFinite s m E) = roundFinite (!s) m E := by
  unfold roundFinite
  rcases h : roundRat m 1 E with _ | ⟨M, q⟩ <;> simp [fneg]

lemma fadd_comm (a b : Fp) : fadd a b = fadd b a := by
  cases a with
  | nan => cases b <;> rfl
  | inf s =>
    cases b with
    | nan => rfl
    | inf t => cases s <;> cases t <;> rfl
    | finite sb vb eb => rfl
  | finite sa va ea =>
    cases b with
    | nan => rfl
    | inf t => rfl
    | finite sb vb eb =>
      simp only [fadd]
      rw [min_comm eb ea,
        Int.add_comm (sgnInt sb vb * 2 ^ (eb - min ea eb).toNat)
          (sgnInt sa va * 2 ^ (ea - min ea eb).toNat),
        Bool.and_comm sb sa]

lemma fadd_ne_nan (a b : Fp) (ha : isFinite a = true) (hb : isFinite b = true) :
    fadd a b ≠ Fp.nan := by
  cases a <;> simp [isFinite] at ha
  cases b <;> simp [isFinite] at hb
  simp only [fadd]
  split
  · simp
  · exact roundFinite_ne_nan _ _ _

lemma fsub_ne_nan (a b : Fp) (ha : isFinite a = true) (hb : isFinite b = true) :
    fsub a b ≠ Fp.nan := by
  cases a <;> simp [isFinite] at ha
  cases b <;> simp [isFinite] at hb
  simp only [fsub]
  split
  · simp
  · exact roundFinite_ne_nan _ _ _

lemma fsub_antisym_core (a b : Fp) (h : fsub a b ≠ Fp.nan) :
    feq (fsub a b) (fneg (fsub b a)) = true := by
  cases a with
  | nan => cases b <;> exact absurd rfl h
  | inf s =>
    cases b with
    | nan => exact absurd (show fsub (Fp.inf s) Fp.nan = Fp.nan from rfl) h
    | inf t =>
      by_cases hst : s = t
      · subst hst; simp [fsub] at h
      · cases s <;> cases t <;> simp_all [fsub, fneg, feq]
    | finite sb vb eb => cases s <;> simp [fsub, fneg, feq]
  | finite sa va ea =>
    cases b with
    | nan => exact absurd (show fsub (Fp.finite sa va ea) Fp.nan = Fp.nan from rfl) h
    | inf t => cases t <;> simp [fsub, fneg, feq]
    | finite sb vb eb =>
      simp only [fsub] at h ⊢
      rw [min_comm eb ea]
      rw [show sgnInt sb vb * 2 ^ (eb - min ea eb).toNat -
            sgnInt sa va * 2 ^ (ea - min ea eb).toNat =
          -(sgnInt sa va * 2 ^ (ea - min ea eb).toNat -
            sgnInt sb vb * 2 ^ (eb - min ea eb).toNat) by ring]
      set S := sgnInt sa va * 2 ^ (ea - min ea eb).toNat -
        sgnInt sb vb * 2 ^ (eb - min ea eb).toNat with hS
      by_cases h0 : S = 0
      · simp [h0, fneg, feq, sgnInt_zero]
      · rw [if_neg h0, if_neg (by omega : ¬-S = 0)]
        rw [fneg_roundFinite, Int.natAbs_neg]
        rw [show (!decide (-S < 0)) = decide (S < 0) by
          rw [← decide_not]
          exact decide_eq_decide.mpr (by omega)]
        exact feq_refl _ (roundFinite_ne_nan _ _ _)

lemma isNan_eq_false (x : Fp) (h : x ≠ Fp.nan) : isNan x = false := by
  cases x with
  | nan => exact absurd rfl h
  | inf s => rfl
  | finite s v e => rfl

/-- C1: for every pair of finite floating-point numbers (a, b), the `sum`
function of app.py returns exactly the IEEE-754 binary64 sum a + b: its
result compares equal, under IEEE `==`, to the correctly rounded
(round-to-nearest, ties-to-even) addition of the operands. -/
theorem sum_returns_ieee_sum (a b : Fp) (ha : isFinite a = true)
    (hb : isFinite b = true) : feq (sum a b) (fadd a b) = true := by
  simp only [sum]
  exact feq_refl _ (fadd_ne_nan a b ha hb)

/-- Witness for sum_returns_ieee_sum at the demonstration inputs 1.0, 2.0. -/
theorem sum_returns_ieee_sum_witness :
    feq (sum (Fp.finite false 1 0) (Fp.finite false 1 1))
      (fadd (Fp.finite false 1 0) (Fp.finite false 1 1)) = true :=
  sum_returns_ieee_sum (Fp.finite false 1 0) (Fp.finite false 1 1) rfl rfl

/-- C2: for every pair of finite floating-point numbers (a, b), the
`subtract` function of app.py returns exactly the IEEE-754 binary64
difference a - b: its result compares equal, under IEEE `==`, to the
correctly rounded subtraction of the operands. -/
theorem subtract_returns_ieee_difference (a b : Fp) (ha : isFinite a = true)
    (hb : isFinite b = true) : feq (subtract a b) (fsub a b) = true := by
  simp only [subtract]
  exact feq_refl _ (fsub_ne_nan a b ha hb)

/-- Witness for subtract_returns_ieee_difference at the inputs 1.0, 2.0. -/
theorem subtract_returns_ieee_difference_witness :
    feq (subtract (Fp.finite false 1 0) (Fp.finite false 1 1))
      (fsub (Fp.finite false 1 0) (Fp.finite false 1 1)) = true :=
  subtract_returns_ieee_difference (Fp.finite false 1 0) (Fp.finite false 1 1) rfl rfl

/-- C3: running `do_some_math` writes exactly one line to standard output,
and with its fixed literal inputs 1.0 and 2.0 that line is exactly
`Sum: 3.0, Difference: -1.0`, each value being the default string rendering
(shortest round-tripping decimal) of the corresponding float. -/
theorem do_some_math_prints_one_line :
    (do_some_math []).2 = ["Sum: 3.0, Difference: -1.0"] := by decide

/-- C4 counterexample: at the floating-point pair (+inf, -inf) the sums in
both orders are NaN, and IEEE `==` is false on NaN, so the claimed
`add(a, b) == add(b, a)` fails for this pair of floating-point numbers. -/
theorem sum_commutative_counterexample :
    feq (sum (Fp.inf false) (Fp.inf true)) (sum (Fp.inf true) (Fp.inf false)) = false := by
  decide

/-- C4 amended: for every pair of floating-point numbers (a, b) such that
`sum a b` is not NaN — in particular for all finite pairs — the addition is
commutative under IEEE `==`: add(a, b) == add(b, a). (As floating-point
data the two results agree for every pair; only the NaN-result pairs escape
the `==` form of the claim.) -/
theorem sum_commutative_of_not_nan (a b : Fp) (h : sum a b ≠ Fp.nan) :
    feq (sum a b) (sum b a) = true := by
  simp only [sum] at h ⊢
  rw [fadd_comm b a]
  exact feq_refl _ h

/-- Witness for sum_commutative_of_not_nan at the inputs 1.0, 2.0. -/
theorem sum_commutative_of_not_nan_witness :
    feq (sum (Fp.finite false 1 0) (Fp.finite false 1 1))
      (sum (Fp.finite false 1 1) (Fp.finite false 1 0)) = true :=
  sum_commutative_of_not_nan (Fp.finite false 1 0) (Fp.finite false 1 1) (by decide)

/-- C5 counterexample: at the floating-point pair (+inf, +inf) the
difference `subtract (+inf) (+inf)` is NaN in both orders, and IEEE `==`
is false on NaN, so the claimed `subtract(a, b) == -subtract(b, a)` fails
for this pair of floating-point numbers. -/
theorem subtract_antisymmetric_counterexample :
    feq (subtract (Fp.inf false) (Fp.inf false))
      (fneg (subtract (Fp.inf false) (Fp.inf false))) = false := by decide

/-- C5 amended: for every pair of floating-point numbers (a, b) such that
`subtract a b` is not NaN — in particular for all finite pairs —
subtraction is anti-symmetric under IEEE `==`:
subtract(a, b) == -subtract(b, a). -/
theorem subtract_antisymmetric_of_not_nan (a b : Fp) (h : subtract a b ≠ Fp.nan) :
    feq (subtract a b) (fneg (subtract b a)) = true := by
  simp only [subtract] at h ⊢
  exact fsub_antisym_core a b h

/-- Witness for subtract_antisymmetric_of_not_nan at the inputs 1.0, 2.0. -/
theorem subtract_antisymmetric_of_not_nan_witness :
    feq (subtract (Fp.finite false 1 0) (Fp.finite false 1 1))
      (fneg (subtract (Fp.finite false 1 1) (Fp.finite false 1 0))) = true :=
  subtract_antisymmetric_of_not_nan (Fp.finite false 1 0) (Fp.finite false 1 1)
    (by decide)

/-- C6: on the concrete demonstration inputs, `sum` applied to (1.0, 2.0)
returns 3.0 and `subtract` applied to (1.0, 2.0) returns -1.0. -/
theorem demo_concrete_results :
    feq (sum (Fp.finite false 1 0) (Fp.finite false 1 1)) (Fp.finite false 3 0) = true ∧
    feq (subtract (Fp.finite false 1 0) (Fp.finite false 1 1)) (Fp.finite true 1 0) = true := by
  decide

/-- C7: for every pair of finite floating-point inputs, the calls to `sum`
and `subtract` are total and never fail: each call returns normally with
its value (the error branch of the call embedding is unreachable), and the
IEEE invalid-operation outcome (a NaN result) never arises from finite
operands. The operations are pure functions of their arguments, so they
have no side effects. -/
theorem calls_never_fail (a b : Fp) (ha : isFinite a = true)
    (hb : isFinite b = true) :
    sum_call a b = Except.ok (sum a b) ∧
    subtract_call a b = Except.ok (subtract a b) ∧
    isNan (sum a b) = false ∧ isNan (subtract a b) = false := by
  refine ⟨rfl, rfl, ?_, ?_⟩
  · exact isNan_eq_false _ (fadd_ne_nan a b ha hb)
  · exact isNan_eq_false _ (fsub_ne_nan a b ha hb)

/-- Witness for calls_never_fail at the demonstration inputs 1.0, 2.0. -/
theorem calls_never_fail_witness :
    sum_call (Fp.finite false 1 0) (Fp.finite false 1 1) =
      Except.ok (sum (Fp.finite false 1 0) (Fp.finite false 1 1)) ∧
    subtract_call (Fp.finite false 1 0) (Fp.finite false 1 1) =
      Except.ok (subtract (Fp.finite false 1 0) (Fp.finite false 1 1)) ∧
    isNan (sum (Fp.finite false 1 0) (Fp.finite false 1 1)) = false ∧
    isNan (subtract (Fp.finite false 1 0) (Fp.finite false 1 1)) = false :=
  calls_never_fail (Fp.finite false 1 0) (Fp.finite false 1 1) rfl rfl

/-- C8: `do_some_math` returns the unit value (Python's None), and its only
observable effect is the single console write: from any prior
standard-output state it appends exactly the one line it would write on an
empty output, reading or modifying nothing else. -/
theorem do_some_math_frame (out : List String) :
    (do_some_math out).1 = () ∧
    (do_some_math out).2 = out ++ (do_some_math []).2 ∧
    (do_some_math []).2.length = 1 := by
  refine ⟨rfl, ?_, rfl⟩
  simp [do_some_math, pyPrint]

/-- C9: `do_some_math` is deterministic: two runs from any two prior
standard-output states write the identical new output and return the
identical value; the behavior depends on no input, environment, or prior
state. -/
theorem do_some_math_deterministic (o1 o2 : List String) :
    (do_some_math o1).2.drop o1.length = (do_some_math o2).2.drop o2.length ∧
    (do_some_math o1).1 = (do_some_math o2).1 := by
  constructor
  · simp [do_some_math, pyPrint]
  · rfl

/-- C10: for every pair of floating-point numbers (a, b), `subtract a b`
returns the identical floating-point datum as `sum a (-b)`: the two
exported operations are related by negation of the second argument. -/
theorem subtract_eq_sum_neg (a b : Fp) : subtract a b = sum a (fneg b) := by
  simp only [subtract, sum]
  cases a with
  | nan => cases b <;> rfl
  | inf s =>
    cases b with
    | nan => rfl
    | inf t => cases s <;> cases t <;> rfl
    | finite sb vb eb => rfl
  | finite sa va ea =>
    cases b with
    | nan => rfl
    | inf t => rfl
    | finite sb vb eb =>
      simp only [fsub, fadd, fneg]
      rw [sgnInt_not, Int.neg_mul, Int.sub_eq_add_neg]

end App
